import Mathlib

/-!
Shallow embedding of the restaurant-api Go backend (handlers, services,
repositories and the JWT token flow), with theorems settling the spec claims.

The relational store is modelled as explicit lists of records passed through
the functions; GORM soft-delete is modelled by removal from the list (a
soft-deleted row is invisible to every query in this codebase). HTTP status
codes are kept as the numeric literals the handlers return.
-/

namespace RestaurantApi

/-- models.User (src/unnamed/part_006). Timestamps and the soft-delete marker
are omitted: no claim observes them, and deletion is modelled by removal from
the store. -/
structure User where
  id : Nat
  name : String
  email : String
  password : String
  role : String
  deriving Repr, DecidableEq

/-- models.Restaurant (src/unnamed/part_006). -/
structure Restaurant where
  id : Nat
  name : String
  description : String
  address : String
  phone : String
  userID : Nat
  deriving Repr, DecidableEq

/-- models.RegisterUserRequest (src/unnamed/part_006): name, email, password.
The struct has no role field. -/
structure RegisterUserRequest where
  name : String
  email : String
  password : String
  deriving Repr, DecidableEq

/-- models.LoginUserRequest (src/unnamed/part_006). -/
structure LoginUserRequest where
  email : String
  password : String
  deriving Repr, DecidableEq

/-- models.UpdateUserRequest (src/unnamed/part_006); every field optional,
absent fields decode to the empty string. -/
structure UpdateUserRequest where
  name : String
  email : String
  password : String
  role : String
  deriving Repr, DecidableEq

/-- models.CreateRestaurantRequest (src/unnamed/part_006). -/
structure CreateRestaurantRequest where
  name : String
  description : String
  address : String
  phone : String
  deriving Repr, DecidableEq

/-- models.UpdateRestaurantRequest (src/unnamed/part_006); absent fields decode
to the empty string. -/
structure UpdateRestaurantRequest where
  name : String
  description : String
  address : String
  phone : String
  deriving Repr, DecidableEq

/-- services.JWTClaims (src/unnamed/part_007): user id, email, role plus the
embedded StandardClaims, of which only ExpiresAt is ever set. `expiresAt = 0`
is the Go zero value, meaning no expiry claim. -/
structure JWTClaims where
  userID : Nat
  email : String
  role : String
  expiresAt : Nat
  deriving Repr, DecidableEq

/-! ## Repositories

RestaurantRepository is src/unnamed/part_003; its store is a list of rows and
`First`/`Find`/`Save`/`Delete` become list lookup, map and filter. -/

/-- RestaurantRepository.GetByID (src/unnamed/part_003): `db.First(&r, id)`,
`none` when no row has the id. -/
def restaurantGetByID (rdb : List Restaurant) (id : Nat) : Option Restaurant :=
  rdb.find? (fun r => r.id == id)

/-- RestaurantRepository.GetByUserID (src/unnamed/part_003). -/
def restaurantGetByUserID (rdb : List Restaurant) (userID : Nat) : List Restaurant :=
  rdb.filter (fun r => r.userID == userID)

/-- RestaurantRepository.Create (src/unnamed/part_003). -/
def restaurantCreate (rdb : List Restaurant) (r : Restaurant) : List Restaurant :=
  rdb ++ [r]

/-- RestaurantRepository.Update (src/unnamed/part_003): `db.Save` replaces the
row with the same primary key. -/
def restaurantUpdate (rdb : List Restaurant) (r : Restaurant) : List Restaurant :=
  rdb.map (fun x => if x.id == r.id then r else x)

/-- RestaurantRepository.Delete (src/unnamed/part_003): soft delete, modelled
as removal. -/
def restaurantDelete (rdb : List Restaurant) (id : Nat) : List Restaurant :=
  rdb.filter (fun r => r.id != id)

/-- Modelled from the spec: UserRepository is absent from src/ (only its
callers and the analogous RestaurantRepository in src/unnamed/part_003 are
present). Per spec section 3, users live in a relational store keyed by id with
a unique email column; GetByID is lookup by primary key. -/
def userGetByID (udb : List User) (id : Nat) : Option User :=
  udb.find? (fun u => u.id == id)

/-- Modelled from the spec: UserRepository.GetByEmail, lookup by the unique
email column (spec section 3: "email (unique)"). -/
def userGetByEmail (udb : List User) (email : String) : Option User :=
  udb.find? (fun u => u.email == email)

/-- Modelled from the spec: UserRepository.Create appends the new row. -/
def userCreate (udb : List User) (u : User) : List User :=
  udb ++ [u]

/-- Modelled from the spec: UserRepository.Update replaces the row with the
same primary key. -/
def userUpdate (udb : List User) (u : User) : List User :=
  udb.map (fun x => if x.id == u.id then u else x)

/-- Modelled from the spec: UserRepository.Delete, soft delete modelled as
removal (spec section 3: "Deleted via soft-delete marker"). -/
def userDelete (udb : List User) (id : Nat) : List User :=
  udb.filter (fun u => u.id != id)

/-! ## Password hashing -/

/-- Modelled from the spec: utils.HashPassword (the bcrypt wrapper is absent
from src/). Spec section 4.1: `hash(password) -> hash`, one-way; idealized as
an injective tagging so that `verify` recomputes and compares. -/
def hashPassword (p : String) : String :=
  "bcrypt$" ++ p

/-- Modelled from the spec: utils.CheckPasswordHash. Spec section 4.1:
`verify(password, hash) -> bool`. -/
def checkPasswordHash (p h : String) : Bool :=
  hashPassword p == h

/-! ## JWT tokens

The dgrijalva/jwt-go library calls are embedded with the HMAC idealized: a
signed token carries its payload and a tag, and the tag verifies under a
secret exactly when it was produced with that secret over that payload. -/

/-- HMAC-SHA256 over the claims, idealized as the (secret, payload) pair. -/
def hmacSHA256 (secret : String) (claims : JWTClaims) : String × JWTClaims :=
  (secret, claims)

/-- A serialized signed JWT: payload claims plus the signature tag. -/
structure SignedToken where
  claims : JWTClaims
  mac : String × JWTClaims
  deriving Repr, DecidableEq

/-- Service error sentinels (src/internal/services/user_service.go and
src/unnamed/part_007), modelled by their messages. -/
def ErrUserNotFound : String := "user not found"

def ErrRestaurantNotFound : String := "restaurant not found"

/-! ## UserService (src/internal/services/user_service.go) -/

/-- UserService.GetUserByID. -/
def UserService.GetUserByID (udb : List User) (id : Nat) : Except String User :=
  match userGetByID udb id with
  | none => .error ErrUserNotFound
  | some u => .ok u

/-- The name branch of UserService.UpdateUser
(src/internal/services/user_service.go lines 46-48): overwrite only when the
request carries a non-empty name. -/
def applyUserName (request : UpdateUserRequest) (u : User) : User :=
  if request.name ≠ "" then { u with name := request.name } else u

/-- The email branch of UserService.UpdateUser
(src/internal/services/user_service.go lines 50-57): on a change to a
non-empty, different email the uniqueness of the new email is re-checked. -/
def applyUserEmail (udb : List User) (id : Nat) (request : UpdateUserRequest) (u : User) :
    Except String User :=
  if request.email ≠ "" ∧ request.email ≠ u.email then
    match userGetByEmail udb request.email with
    | some existing =>
      if existing.id ≠ id then .error "email already in use"
      else .ok { u with email := request.email }
    | none => .ok { u with email := request.email }
  else .ok u

/-- The password branch of UserService.UpdateUser
(src/internal/services/user_service.go lines 59-66): a non-empty password is
stored hashed. -/
def applyUserPassword (request : UpdateUserRequest) (u : User) : User :=
  if request.password ≠ "" then { u with password := hashPassword request.password } else u

/-- The role branch of UserService.UpdateUser
(src/internal/services/user_service.go lines 68-74): a non-empty role must be
admin or user. -/
def applyUserRole (request : UpdateUserRequest) (u : User) : Except String User :=
  if request.role ≠ "" then
    if request.role ≠ "admin" ∧ request.role ≠ "user" then .error "invalid role"
    else .ok { u with role := request.role }
  else .ok u

/-- UserService.UpdateUser (src/internal/services/user_service.go lines 38-78):
fetch the user, then run the four field branches in source order and save the
result. Returns the updated user and store. -/
def UserService.UpdateUser (udb : List User) (id : Nat) (request : UpdateUserRequest) :
    Except String (User × List User) :=
  match userGetByID udb id with
  | none => .error ErrUserNotFound
  | some user0 =>
    match applyUserEmail udb id request (applyUserName request user0) with
    | .error e => .error e
    | .ok user2 =>
      match applyUserRole request (applyUserPassword request user2) with
      | .error e => .error e
      | .ok user4 => .ok (user4, userUpdate udb user4)

/-- UserService.DeleteUser (src/internal/services/user_service.go lines 81-90). -/
def UserService.DeleteUser (udb : List User) (id : Nat) : Except String (List User) :=
  match userGetByID udb id with
  | none => .error ErrUserNotFound
  | some _ => .ok (userDelete udb id)

/-! ## RestaurantService (src/unnamed/part_007, first file) -/

/-- RestaurantService.GetRestaurantsByUserID (src/unnamed/part_007 lines 30-38). -/
def RestaurantService.GetRestaurantsByUserID (udb : List User) (rdb : List Restaurant)
    (userID : Nat) : Except String (List Restaurant) :=
  match userGetByID udb userID with
  | none => .error ErrUserNotFound
  | some _ => .ok (restaurantGetByUserID rdb userID)

/-- RestaurantService.GetRestaurantByID (src/unnamed/part_007 lines 41-59):
checks the user exists, fetches the restaurant, and hides restaurants of other
users behind ErrRestaurantNotFound. -/
def RestaurantService.GetRestaurantByID (udb : List User) (rdb : List Restaurant)
    (id userID : Nat) : Except String Restaurant :=
  match userGetByID udb userID with
  | none => .error ErrUserNotFound
  | some _ =>
    match restaurantGetByID rdb id with
    | none => .error ErrRestaurantNotFound
    | some restaurant =>
      if restaurant.userID ≠ userID then .error ErrRestaurantNotFound
      else .ok restaurant

/-- RestaurantService.GetRestaurantByIDWithoutUserCheck (src/unnamed/part_007
lines 62-69). -/
def RestaurantService.GetRestaurantByIDWithoutUserCheck (rdb : List Restaurant)
    (id : Nat) : Except String Restaurant :=
  match restaurantGetByID rdb id with
  | none => .error ErrRestaurantNotFound
  | some restaurant => .ok restaurant

/-- RestaurantService.CreateRestaurant (src/unnamed/part_007 lines 72-88);
`nextId` stands for the auto-increment primary key the store assigns. -/
def RestaurantService.CreateRestaurant (udb : List User) (rdb : List Restaurant)
    (nextId : Nat) (request : CreateRestaurantRequest) (userID : Nat) :
    Except String (Restaurant × List Restaurant) :=
  match userGetByID udb userID with
  | none => .error ErrUserNotFound
  | some _ =>
    let restaurant : Restaurant :=
      { id := nextId, name := request.name, description := request.description,
        address := request.address, phone := request.phone, userID := userID }
    .ok (restaurant, restaurantCreate rdb restaurant)

/-- The field branches of RestaurantService.UpdateRestaurant
(src/unnamed/part_007 lines 98-113), in source order: each of name,
description, address and phone overwrites only when the request supplies a
non-empty value. -/
def applyRestaurantFields (request : UpdateRestaurantRequest) (r : Restaurant) : Restaurant :=
  let r1 := if request.name ≠ "" then { r with name := request.name } else r
  let r2 := if request.description ≠ "" then { r1 with description := request.description } else r1
  let r3 := if request.address ≠ "" then { r2 with address := request.address } else r2
  if request.phone ≠ "" then { r3 with phone := request.phone } else r3

/-- RestaurantService.UpdateRestaurant (src/unnamed/part_007 lines 91-117):
fetch the restaurant, apply the field branches, save. -/
def RestaurantService.UpdateRestaurant (rdb : List Restaurant) (id : Nat)
    (request : UpdateRestaurantRequest) : Except String (Restaurant × List Restaurant) :=
  match restaurantGetByID rdb id with
  | none => .error ErrRestaurantNotFound
  | some r0 =>
    let r4 := applyRestaurantFields request r0
    .ok (r4, restaurantUpdate rdb r4)

/-- RestaurantService.DeleteRestaurant (src/unnamed/part_007 lines 120-129). -/
def RestaurantService.DeleteRestaurant (rdb : List Restaurant) (id : Nat) :
    Except String (List Restaurant) :=
  match restaurantGetByID rdb id with
  | none => .error ErrRestaurantNotFound
  | some _ => .ok (restaurantDelete rdb id)

/-! ## AuthService (src/unnamed/part_007, second file) -/

/-- AuthService.generateToken (src/unnamed/part_007 lines 222-243): claims
carry the user's id, email and role, ExpiresAt is `now + 24h` (in Unix
seconds), and the token is signed with HS256 under the service secret. -/
def AuthService.generateToken (secret : String) (now : Nat) (user : User) : SignedToken :=
  let claims : JWTClaims :=
    { userID := user.id, email := user.email, role := user.role,
      expiresAt := now + 24 * 3600 }
  { claims := claims, mac := hmacSHA256 secret claims }

/-- AuthService.ValidateToken (src/unnamed/part_007 lines 246-266) through
jwt-go ParseWithClaims: the parse fails when the claims are invalid
(StandardClaims treats a zero ExpiresAt as no expiry, and is expired exactly
when `now > expiresAt`) or when the HS256 signature does not verify under the
service secret; on success it returns the claims. -/
def AuthService.ValidateToken (secret : String) (now : Nat) (tok : SignedToken) :
    Except String JWTClaims :=
  if tok.claims.expiresAt ≠ 0 ∧ tok.claims.expiresAt < now then .error "token is expired"
  else if tok.mac ≠ hmacSHA256 secret tok.claims then .error "signature is invalid"
  else .ok tok.claims

/-- middleware.JWT (src/unnamed/part_002): parses the bearer token with the
same jwt-go call and secret; any parse error becomes HTTP 401 Unauthorized,
otherwise the claims are installed for the handler. -/
def JWTMiddleware (secret : String) (now : Nat) (tok : SignedToken) :
    Except Nat JWTClaims :=
  match AuthService.ValidateToken secret now tok with
  | .error _ => .error 401
  | .ok claims => .ok claims

/-- AuthService.Register (src/unnamed/part_007 lines 168-190): reject when a
user with the email already exists, else create the user with the hashed
password and the default role "user". `nextId` stands for the auto-increment
primary key. -/
def AuthService.Register (udb : List User) (nextId : Nat) (request : RegisterUserRequest) :
    Except String (User × List User) :=
  match userGetByEmail udb request.email with
  | some _ => .error "user with this email already exists"
  | none =>
    let user : User :=
      { id := nextId, name := request.name, email := request.email,
        password := hashPassword request.password, role := "user" }
    .ok (user, userCreate udb user)

/-- AuthService.Login (src/unnamed/part_007 lines 193-212): lookup by email
and verify the password; both failures return the same error string. On
success a token is generated. -/
def AuthService.Login (udb : List User) (secret : String) (now : Nat)
    (request : LoginUserRequest) : Except String (User × SignedToken) :=
  match userGetByEmail udb request.email with
  | none => .error "invalid email or password"
  | some user =>
    if ¬ checkPasswordHash request.password user.password then
      .error "invalid email or password"
    else .ok (user, AuthService.generateToken secret now user)

/-! ## Handlers

Handlers are modelled after request binding and validation succeeded and the
JWT middleware installed the claims (ExtractTokenClaims in src/unnamed/part_007
never fails once the middleware ran). Each returns the HTTP status it writes,
paired with the store it leaves behind when it can mutate. -/

/-- AuthHandler.Register (src/unnamed/part_005 lines 39-55): any service error
is surfaced as HTTP 500, success as 201. -/
def AuthHandler.Register (request : RegisterUserRequest) (udb : List User) (nextId : Nat) :
    Nat × List User :=
  match AuthService.Register udb nextId request with
  | .error _ => (500, udb)
  | .ok (_, udb') => (201, udb')

/-- AuthHandler.Login (src/unnamed/part_005 lines 69-90): service error is
HTTP 401, success 200. -/
def AuthHandler.Login (request : LoginUserRequest) (udb : List User) (secret : String)
    (now : Nat) : Nat :=
  match AuthService.Login udb secret now request with
  | .error _ => 401
  | .ok _ => 200

/-- UserHandler.GetUser (src/unnamed/part_004 lines 47-73): ownership-or-admin
check against the requested id first, then the lookup; ErrUserNotFound becomes
404. -/
def UserHandler.GetUser (claims : JWTClaims) (id : Nat) (udb : List User) : Nat :=
  if claims.userID ≠ id ∧ claims.role ≠ "admin" then 403
  else
    match UserService.GetUserByID udb id with
    | .error e => if e == ErrUserNotFound then 404 else 500
    | .ok _ => 200

/-- UserHandler.UpdateUser (src/unnamed/part_004 lines 91-131): forbids a role
change by a non-admin, then the ownership-or-admin check against the requested
id, then the service call; ErrUserNotFound becomes 404, other service errors
500. -/
def UserHandler.UpdateUser (claims : JWTClaims) (id : Nat) (request : UpdateUserRequest)
    (udb : List User) : Nat × List User :=
  if request.role ≠ "" ∧ claims.role ≠ "admin" then (403, udb)
  else if claims.userID ≠ id ∧ claims.role ≠ "admin" then (403, udb)
  else
    match UserService.UpdateUser udb id request with
    | .error e => if e == ErrUserNotFound then (404, udb) else (500, udb)
    | .ok (_, udb') => (200, udb')

/-- UserHandler.DeleteUser (src/unnamed/part_004 lines 148-174): ownership-or-
admin check against the requested id first, then the delete. -/
def UserHandler.DeleteUser (claims : JWTClaims) (id : Nat) (udb : List User) :
    Nat × List User :=
  if claims.userID ≠ id ∧ claims.role ≠ "admin" then (403, udb)
  else
    match UserService.DeleteUser udb id with
    | .error e => if e == ErrUserNotFound then (404, udb) else (500, udb)
    | .ok udb' => (200, udb')

/-- RestaurantHandler.GetUserRestaurants (src/unnamed/part_005 lines 137-169). -/
def RestaurantHandler.GetUserRestaurants (claims : JWTClaims) (userId : Nat)
    (udb : List User) (rdb : List Restaurant) : Nat :=
  if claims.userID ≠ userId ∧ claims.role ≠ "admin" then 403
  else
    match RestaurantService.GetRestaurantsByUserID udb rdb userId with
    | .error e => if e == ErrUserNotFound then 404 else 500
    | .ok _ => 200

/-- RestaurantHandler.GetUserRestaurant (src/unnamed/part_005 lines 187-221):
the path userId is compared with the principal before any lookup; both service
not-found errors become 404. -/
def RestaurantHandler.GetUserRestaurant (claims : JWTClaims) (userId restaurantId : Nat)
    (udb : List User) (rdb : List Restaurant) : Nat :=
  if claims.userID ≠ userId ∧ claims.role ≠ "admin" then 403
  else
    match RestaurantService.GetRestaurantByID udb rdb restaurantId userId with
    | .error e =>
      if e == ErrRestaurantNotFound then 404
      else if e == ErrUserNotFound then 404
      else 500
    | .ok _ => 200

/-- RestaurantHandler.CreateRestaurant (src/unnamed/part_005 lines 236-261). -/
def RestaurantHandler.CreateRestaurant (claims : JWTClaims)
    (request : CreateRestaurantRequest) (udb : List User) (rdb : List Restaurant)
    (nextId : Nat) : Nat × List Restaurant :=
  match RestaurantService.CreateRestaurant udb rdb nextId request claims.userID with
  | .error e => if e == ErrUserNotFound then (404, rdb) else (500, rdb)
  | .ok (_, rdb') => (201, rdb')

/-- RestaurantHandler.UpdateRestaurant (src/unnamed/part_005 lines 279-323):
fetch the restaurant first (404 when absent), then the ownership-or-admin
check against the stored row's user id, then the service update. -/
def RestaurantHandler.UpdateRestaurant (claims : JWTClaims) (id : Nat)
    (request : UpdateRestaurantRequest) (rdb : List Restaurant) : Nat × List Restaurant :=
  match RestaurantService.GetRestaurantByIDWithoutUserCheck rdb id with
  | .error e => if e == ErrRestaurantNotFound then (404, rdb) else (500, rdb)
  | .ok restaurant =>
    if restaurant.userID ≠ claims.userID ∧ claims.role ≠ "admin" then (403, rdb)
    else
      match RestaurantService.UpdateRestaurant rdb id request with
      | .error e => if e == ErrRestaurantNotFound then (404, rdb) else (500, rdb)
      | .ok (_, rdb') => (200, rdb')

/-- RestaurantHandler.DeleteRestaurant (src/unnamed/part_005 lines 340-375):
fetch the restaurant first (404 when absent), then the ownership-or-admin
check against the stored row's user id, then the service delete. -/
def RestaurantHandler.DeleteRestaurant (claims : JWTClaims) (id : Nat)
    (rdb : List Restaurant) : Nat × List Restaurant :=
  match RestaurantService.GetRestaurantByIDWithoutUserCheck rdb id with
  | .error e => if e == ErrRestaurantNotFound then (404, rdb) else (500, rdb)
  | .ok restaurant =>
    if restaurant.userID ≠ claims.userID ∧ claims.role ≠ "admin" then (403, rdb)
    else
      match RestaurantService.DeleteRestaurant rdb id with
      | .error e => if e == ErrRestaurantNotFound then (404, rdb) else (500, rdb)
      | .ok rdb' => (200, rdb')

/-! ## Helper lemmas about the update branches -/

theorem applyUserName_fields (request : UpdateUserRequest) (u : User) :
    (applyUserName request u).email = u.email ∧
    (applyUserName request u).password = u.password ∧
    (applyUserName request u).role = u.role ∧
    (applyUserName request u).id = u.id ∧
    (request.name = "" → (applyUserName request u).name = u.name) ∧
    (request.name ≠ "" → (applyUserName request u).name = request.name) := by
  unfold applyUserName
  split
  · rename_i hc
    exact ⟨rfl, rfl, rfl, rfl, fun he => absurd he hc, fun _ => rfl⟩
  · rename_i hc
    push_neg at hc
    exact ⟨rfl, rfl, rfl, rfl, fun _ => rfl, fun hne => absurd hc hne⟩

theorem applyUserEmail_ok_fields (udb : List User) (id : Nat)
    (request : UpdateUserRequest) (u r : User)
    (h : applyUserEmail udb id request u = .ok r) :
    r.name = u.name ∧ r.password = u.password ∧ r.role = u.role ∧ r.id = u.id ∧
    (request.email = "" → r.email = u.email) ∧
    (request.email ≠ "" → r.email = request.email) := by
  unfold applyUserEmail at h
  split at h
  · rename_i hcond
    split at h
    · split at h
      · exact absurd h (by simp)
      · simp only [Except.ok.injEq] at h
        subst h
        exact ⟨rfl, rfl, rfl, rfl, fun he => absurd he hcond.1, fun _ => rfl⟩
    · simp only [Except.ok.injEq] at h
      subst h
      exact ⟨rfl, rfl, rfl, rfl, fun he => absurd he hcond.1, fun _ => rfl⟩
  · rename_i hcond
    simp only [Except.ok.injEq] at h
    subst h
    push_neg at hcond
    exact ⟨rfl, rfl, rfl, rfl, fun _ => rfl, fun hne => (hcond hne).symm⟩

theorem applyUserPassword_fields (request : UpdateUserRequest) (u : User) :
    (applyUserPassword request u).name = u.name ∧
    (applyUserPassword request u).email = u.email ∧
    (applyUserPassword request u).role = u.role ∧
    (applyUserPassword request u).id = u.id ∧
    (request.password = "" → (applyUserPassword request u).password = u.password) ∧
    (request.password ≠ "" →
      (applyUserPassword request u).password = hashPassword request.password) := by
  unfold applyUserPassword
  split
  · rename_i hc
    exact ⟨rfl, rfl, rfl, rfl, fun he => absurd he hc, fun _ => rfl⟩
  · rename_i hc
    push_neg at hc
    exact ⟨rfl, rfl, rfl, rfl, fun _ => rfl, fun hne => absurd hc hne⟩

theorem applyUserRole_ok_fields (request : UpdateUserRequest) (u r : User)
    (h : applyUserRole request u = .ok r) :
    r.name = u.name ∧ r.email = u.email ∧ r.password = u.password ∧ r.id = u.id ∧
    (request.role = "" → r.role = u.role) ∧
    (request.role ≠ "" →
      r.role = request.role ∧ (request.role = "admin" ∨ request.role = "user")) := by
  unfold applyUserRole at h
  split at h
  · rename_i hne
    split at h
    · exact absurd h (by simp)
    · rename_i hvalid
      push_neg at hvalid
      simp only [Except.ok.injEq] at h
      subst h
      refine ⟨rfl, rfl, rfl, rfl, fun he => absurd he hne, fun _ => ⟨rfl, ?_⟩⟩
      by_cases ha : request.role = "admin"
      · exact Or.inl ha
      · exact Or.inr (hvalid ha)
  · rename_i hc
    push_neg at hc
    simp only [Except.ok.injEq] at h
    subst h
    exact ⟨rfl, rfl, rfl, rfl, fun _ => rfl, fun hne => absurd hc hne⟩

/-- Inversion of a successful UserService.UpdateUser run into its branches. -/
theorem UserService.UpdateUser_ok_inv (udb : List User) (id : Nat)
    (request : UpdateUserRequest) (u' : User) (udb' : List User)
    (h : UserService.UpdateUser udb id request = .ok (u', udb')) :
    ∃ u0 u2, userGetByID udb id = some u0 ∧
      applyUserEmail udb id request (applyUserName request u0) = .ok u2 ∧
      applyUserRole request (applyUserPassword request u2) = .ok u' ∧
      udb' = userUpdate udb u' := by
  unfold UserService.UpdateUser at h
  split at h
  · exact absurd h (by simp)
  · rename_i u0 h0
    split at h
    · exact absurd h (by simp)
    · rename_i u2 h2
      split at h
      · exact absurd h (by simp)
      · rename_i u4 h4
        simp only [Except.ok.injEq, Prod.mk.injEq] at h
        obtain ⟨h41, h42⟩ := h
        subst h41
        exact ⟨u0, u2, h0, h2, h4, h42.symm⟩

theorem applyRestaurantFields_name (request : UpdateRestaurantRequest) (r : Restaurant) :
    (applyRestaurantFields request r).name =
      if request.name ≠ "" then request.name else r.name := by
  unfold applyRestaurantFields
  split_ifs <;> rfl

theorem applyRestaurantFields_description (request : UpdateRestaurantRequest)
    (r : Restaurant) :
    (applyRestaurantFields request r).description =
      if request.description ≠ "" then request.description else r.description := by
  unfold applyRestaurantFields
  split_ifs <;> rfl

theorem applyRestaurantFields_address (request : UpdateRestaurantRequest) (r : Restaurant) :
    (applyRestaurantFields request r).address =
      if request.address ≠ "" then request.address else r.address := by
  unfold applyRestaurantFields
  split_ifs <;> rfl

theorem applyRestaurantFields_phone (request : UpdateRestaurantRequest) (r : Restaurant) :
    (applyRestaurantFields request r).phone =
      if request.phone ≠ "" then request.phone else r.phone := by
  unfold applyRestaurantFields
  split_ifs <;> rfl

theorem applyRestaurantFields_id (request : UpdateRestaurantRequest) (r : Restaurant) :
    (applyRestaurantFields request r).id = r.id := by
  unfold applyRestaurantFields
  split_ifs <;> rfl

theorem applyRestaurantFields_userID (request : UpdateRestaurantRequest) (r : Restaurant) :
    (applyRestaurantFields request r).userID = r.userID := by
  unfold applyRestaurantFields
  split_ifs <;> rfl

/-- Inversion of a successful RestaurantService.UpdateRestaurant run. -/
theorem RestaurantService.UpdateRestaurant_ok_inv (rdb : List Restaurant) (id : Nat)
    (request : UpdateRestaurantRequest) (r' : Restaurant) (rdb' : List Restaurant)
    (h : RestaurantService.UpdateRestaurant rdb id request = .ok (r', rdb')) :
    ∃ r0, restaurantGetByID rdb id = some r0 ∧
      r' = applyRestaurantFields request r0 ∧ rdb' = restaurantUpdate rdb r' := by
  unfold RestaurantService.UpdateRestaurant at h
  split at h
  · exact absurd h (by simp)
  · rename_i r0 h0
    simp only [Except.ok.injEq, Prod.mk.injEq] at h
    obtain ⟨h1, h2⟩ := h
    exact ⟨r0, h0, h1.symm, by rw [← h2, h1]⟩

/-! ## Claim theorems -/

/-- Claim C3: for every request by an authenticated principal whose role is not
"admin" to read a restaurant under a userId different from the principal's id,
GetUserRestaurant returns 403 Forbidden. -/
theorem nonadmin_cross_user_restaurant_read_forbidden
    (claims : JWTClaims) (userId restaurantId : Nat)
    (udb : List User) (rdb : List Restaurant)
    (hrole : claims.role ≠ "admin") (hid : claims.userID ≠ userId) :
    RestaurantHandler.GetUserRestaurant claims userId restaurantId udb rdb = 403 := by
  unfold RestaurantHandler.GetUserRestaurant
  simp [hid, hrole]

theorem nonadmin_cross_user_restaurant_read_forbidden_witness :
    RestaurantHandler.GetUserRestaurant
      { userID := 1, email := "a@e.c", role := "user", expiresAt := 0 } 2 9 [] [] = 403 :=
  nonadmin_cross_user_restaurant_read_forbidden
    { userID := 1, email := "a@e.c", role := "user", expiresAt := 0 } 2 9 [] []
    (by decide) (by decide)

/-- Claim C7: a token whose expiry has passed, or whose signature does not verify
under the configured secret, fails validation and is rejected by the JWT
middleware as 401 Unauthorized; a correctly signed, unexpired token validates
to its claims. -/
theorem token_validation_unauthorized_or_claims (secret : String) (now : Nat)
    (tok : SignedToken) :
    (((tok.claims.expiresAt ≠ 0 ∧ tok.claims.expiresAt < now) ∨
        tok.mac ≠ hmacSHA256 secret tok.claims) →
      (∃ e, AuthService.ValidateToken secret now tok = .error e) ∧
      JWTMiddleware secret now tok = .error 401) ∧
    (tok.mac = hmacSHA256 secret tok.claims → now ≤ tok.claims.expiresAt →
      AuthService.ValidateToken secret now tok = .ok tok.claims ∧
      JWTMiddleware secret now tok = .ok tok.claims) := by
  unfold JWTMiddleware AuthService.ValidateToken
  constructor
  · intro h
    rcases h with ⟨hne, hlt⟩ | hmac
    · simp [hne, hlt]
    · by_cases hexp : tok.claims.expiresAt ≠ 0 ∧ tok.claims.expiresAt < now
      · simp [hexp]
      · simp [hexp, hmac]
  · intro hmac hle
    have hexp : ¬ (tok.claims.expiresAt ≠ 0 ∧ tok.claims.expiresAt < now) := by
      intro ⟨_, hlt⟩
      exact absurd hle (by omega)
    simp [hexp, hmac]

theorem token_validation_witness :
    AuthService.ValidateToken "s" 10
        { claims := { userID := 1, email := "a@e.c", role := "user", expiresAt := 20 },
          mac := hmacSHA256 "s" { userID := 1, email := "a@e.c", role := "user", expiresAt := 20 } } =
      .ok { userID := 1, email := "a@e.c", role := "user", expiresAt := 20 } :=
  ((token_validation_unauthorized_or_claims "s" 10
    { claims := { userID := 1, email := "a@e.c", role := "user", expiresAt := 20 },
      mac := hmacSHA256 "s" { userID := 1, email := "a@e.c", role := "user", expiresAt := 20 } }).2
    rfl (by decide)).1

/-- Claim C8: the token issued at login embeds exactly the logged-in user's id,
email and role, with expiry 24 hours (86400 seconds) after issuance. -/
theorem login_token_embeds_user (udb : List User) (secret : String) (now : Nat)
    (req : LoginUserRequest) (u : User) (tok : SignedToken)
    (h : AuthService.Login udb secret now req = .ok (u, tok)) :
    tok.claims =
      { userID := u.id, email := u.email, role := u.role, expiresAt := now + 24 * 3600 } := by
  unfold AuthService.Login at h
  cases hu : userGetByEmail udb req.email with
  | none => rw [hu] at h; exact absurd h (by simp)
  | some user =>
    rw [hu] at h
    by_cases hp : checkPasswordHash req.password user.password
    · simp [hp] at h
      obtain ⟨h1, h2⟩ := h
      subst h1
      rw [← h2]
      rfl
    · simp [hp] at h

theorem login_token_embeds_user_witness :
    ∃ u tok, AuthService.Login [⟨1, "Al", "a@e.c", hashPassword "pw", "user"⟩] "s" 0
        ⟨"a@e.c", "pw"⟩ = .ok (u, tok) ∧
      tok.claims = { userID := u.id, email := u.email, role := u.role, expiresAt := 0 + 24 * 3600 } := by
  refine ⟨⟨1, "Al", "a@e.c", hashPassword "pw", "user"⟩,
    AuthService.generateToken "s" 0 ⟨1, "Al", "a@e.c", hashPassword "pw", "user"⟩, rfl, ?_⟩
  exact login_token_embeds_user [⟨1, "Al", "a@e.c", hashPassword "pw", "user"⟩] "s" 0
    ⟨"a@e.c", "pw"⟩ _ _ rfl

/-- Claim C9: every user created through AuthService.Register gets role "user"
(RegisterUserRequest carries no role field, and the service hard-codes the
default role), so the register endpoint cannot mint an admin account. -/
theorem register_assigns_role_user (udb : List User) (nextId : Nat)
    (req : RegisterUserRequest) (u : User) (udb' : List User)
    (h : AuthService.Register udb nextId req = .ok (u, udb')) :
    u.role = "user" := by
  unfold AuthService.Register at h
  cases he : userGetByEmail udb req.email with
  | some v => rw [he] at h; exact absurd h (by simp)
  | none =>
    rw [he] at h
    simp at h
    rw [← h.1]

theorem register_assigns_role_user_witness :
    ∃ u udb', AuthService.Register [] 1 ⟨"Al", "a@e.c", "password1"⟩ = .ok (u, udb') ∧
      u.role = "user" :=
  ⟨⟨1, "Al", "a@e.c", hashPassword "password1", "user"⟩,
    [⟨1, "Al", "a@e.c", hashPassword "password1", "user"⟩], rfl,
    register_assigns_role_user [] 1 ⟨"Al", "a@e.c", "password1"⟩ _ _ rfl⟩

/-- Claim C10: a login with an unregistered email and a login with a registered
email but a wrong password both fail with the identical error string
"invalid email or password", so the response does not reveal whether the
email is registered. -/
theorem login_failure_message_uniform (udb : List User) (secret : String) (now : Nat)
    (r1 r2 : LoginUserRequest) (u : User)
    (h1 : userGetByEmail udb r1.email = none)
    (h2 : userGetByEmail udb r2.email = some u)
    (h3 : checkPasswordHash r2.password u.password = false) :
    AuthService.Login udb secret now r1 = .error "invalid email or password" ∧
    AuthService.Login udb secret now r2 = .error "invalid email or password" := by
  unfold AuthService.Login
  rw [h1, h2]
  simp [h3]

theorem login_failure_message_uniform_witness :
    AuthService.Login [⟨1, "Al", "a@e.c", hashPassword "pw", "user"⟩] "s" 0
        ⟨"b@e.c", "pw"⟩ = .error "invalid email or password" ∧
    AuthService.Login [⟨1, "Al", "a@e.c", hashPassword "pw", "user"⟩] "s" 0
        ⟨"a@e.c", "wrong"⟩ = .error "invalid email or password" :=
  login_failure_message_uniform [⟨1, "Al", "a@e.c", hashPassword "pw", "user"⟩] "s" 0
    ⟨"b@e.c", "pw"⟩ ⟨"a@e.c", "wrong"⟩ ⟨1, "Al", "a@e.c", hashPassword "pw", "user"⟩
    (by decide) (by decide) (by decide)

/-- Claim C1: for an authenticated restaurant update or delete whose target exists,
the operation succeeds (200) precisely when the principal owns the restaurant
or is an admin; otherwise the handler returns 403 and the store is unchanged. -/
theorem restaurant_write_owner_or_admin (claims : JWTClaims) (id : Nat)
    (req : UpdateRestaurantRequest) (rdb : List Restaurant) (r : Restaurant)
    (hr : restaurantGetByID rdb id = some r) :
    ((claims.userID = r.userID ∨ claims.role = "admin") →
      (RestaurantHandler.UpdateRestaurant claims id req rdb).1 = 200 ∧
      (RestaurantHandler.DeleteRestaurant claims id rdb).1 = 200) ∧
    (claims.userID ≠ r.userID ∧ claims.role ≠ "admin" →
      RestaurantHandler.UpdateRestaurant claims id req rdb = (403, rdb) ∧
      RestaurantHandler.DeleteRestaurant claims id rdb = (403, rdb)) := by
  unfold RestaurantHandler.UpdateRestaurant RestaurantHandler.DeleteRestaurant
    RestaurantService.GetRestaurantByIDWithoutUserCheck
    RestaurantService.UpdateRestaurant RestaurantService.DeleteRestaurant
  rw [hr]
  constructor
  · intro hperm
    have hnot : ¬ (r.userID ≠ claims.userID ∧ claims.role ≠ "admin") := by
      rcases hperm with h | h
      · intro hc; exact hc.1 h.symm
      · intro hc; exact hc.2 h
    simp [hnot]
  · intro ⟨hown, hadmin⟩
    have hne : r.userID ≠ claims.userID := fun h => hown h.symm
    simp [hne, hadmin]

theorem restaurant_write_owner_or_admin_witness :
    (RestaurantHandler.UpdateRestaurant ⟨7, "o@e.c", "user", 0⟩ 5 ⟨"", "", "", ""⟩
        [⟨5, "R", "", "A", "", 7⟩]).1 = 200 ∧
    (RestaurantHandler.DeleteRestaurant ⟨7, "o@e.c", "user", 0⟩ 5
        [⟨5, "R", "", "A", "", 7⟩]).1 = 200 :=
  (restaurant_write_owner_or_admin ⟨7, "o@e.c", "user", 0⟩ 5 ⟨"", "", "", ""⟩
    [⟨5, "R", "", "A", "", 7⟩] ⟨5, "R", "", "A", "", 7⟩ rfl).1 (Or.inl rfl)

/-- Claim C6: a user-update request with a non-empty role field is rejected with 403
and the store left unchanged when the principal is not an admin; when such a
request succeeds the principal is an admin, the role is one of admin/user, and
the stored role becomes the requested one. -/
theorem role_change_restricted_to_admin (claims : JWTClaims) (id : Nat)
    (req : UpdateUserRequest) (udb : List User) (hrole : req.role ≠ "") :
    (claims.role ≠ "admin" → UserHandler.UpdateUser claims id req udb = (403, udb)) ∧
    ((UserHandler.UpdateUser claims id req udb).1 = 200 → claims.role = "admin") ∧
    (∀ u' udb', UserService.UpdateUser udb id req = .ok (u', udb') →
      (req.role = "admin" ∨ req.role = "user") ∧ u'.role = req.role) := by
  refine ⟨?_, ?_, ?_⟩
  · intro hadmin
    unfold UserHandler.UpdateUser
    simp [hrole, hadmin]
  · intro h200
    by_contra hadmin
    have h403 : UserHandler.UpdateUser claims id req udb = (403, udb) := by
      unfold UserHandler.UpdateUser
      simp [hrole, hadmin]
    rw [h403] at h200
    simp at h200
  · intro u' udb' h
    obtain ⟨u0, u2, h0, h2, h4, hdb⟩ := UserService.UpdateUser_ok_inv udb id req u' udb' h
    obtain ⟨-, -, -, -, -, hr⟩ :=
      applyUserRole_ok_fields req (applyUserPassword req u2) u' h4
    obtain ⟨hrole_eq, hvalid⟩ := hr hrole
    exact ⟨hvalid, hrole_eq⟩

theorem role_change_restricted_to_admin_witness :
    UserHandler.UpdateUser ⟨1, "a@e.c", "user", 0⟩ 1 ⟨"", "", "", "admin"⟩ [] =
      (403, []) :=
  (role_change_restricted_to_admin ⟨1, "a@e.c", "user", 0⟩ 1 ⟨"", "", "", "admin"⟩ []
    (by decide)).1 (by decide)

/-- Claim C5: in every successful partial update of a user or of a restaurant, each
field supplied as the empty string keeps its stored value, and only the
non-empty supplied fields are overwritten (the password with its hash); the
record id and the restaurant's owner are untouched. -/
theorem partial_update_empty_fields_preserved
    (udb : List User) (uid : Nat) (ureq : UpdateUserRequest) (u0 u' : User)
    (udb' : List User)
    (hu0 : userGetByID udb uid = some u0)
    (hu : UserService.UpdateUser udb uid ureq = .ok (u', udb'))
    (rdb : List Restaurant) (rid : Nat) (rreq : UpdateRestaurantRequest)
    (r0 r' : Restaurant) (rdb' : List Restaurant)
    (hr0 : restaurantGetByID rdb rid = some r0)
    (hr : RestaurantService.UpdateRestaurant rdb rid rreq = .ok (r', rdb')) :
    ((ureq.name = "" → u'.name = u0.name) ∧ (ureq.name ≠ "" → u'.name = ureq.name) ∧
     (ureq.email = "" → u'.email = u0.email) ∧ (ureq.email ≠ "" → u'.email = ureq.email) ∧
     (ureq.password = "" → u'.password = u0.password) ∧
     (ureq.password ≠ "" → u'.password = hashPassword ureq.password) ∧
     (ureq.role = "" → u'.role = u0.role) ∧ (ureq.role ≠ "" → u'.role = ureq.role) ∧
     u'.id = u0.id) ∧
    ((rreq.name = "" → r'.name = r0.name) ∧ (rreq.name ≠ "" → r'.name = rreq.name) ∧
     (rreq.description = "" → r'.description = r0.description) ∧
     (rreq.description ≠ "" → r'.description = rreq.description) ∧
     (rreq.address = "" → r'.address = r0.address) ∧
     (rreq.address ≠ "" → r'.address = rreq.address) ∧
     (rreq.phone = "" → r'.phone = r0.phone) ∧ (rreq.phone ≠ "" → r'.phone = rreq.phone) ∧
     r'.id = r0.id ∧ r'.userID = r0.userID) := by
  constructor
  · obtain ⟨v0, u2, h0, h2, h4, -⟩ := UserService.UpdateUser_ok_inv udb uid ureq u' udb' hu
    rw [hu0] at h0
    injection h0 with h0
    subst h0
    obtain ⟨n1, n2, n3, n4, n5, n6⟩ := applyUserName_fields ureq u0
    obtain ⟨e1, e2, e3, e4, e5, e6⟩ := applyUserEmail_ok_fields udb uid ureq _ u2 h2
    obtain ⟨p1, p2, p3, p4, p5, p6⟩ := applyUserPassword_fields ureq u2
    obtain ⟨q1, q2, q3, q4, q5, q6⟩ :=
      applyUserRole_ok_fields ureq (applyUserPassword ureq u2) u' h4
    refine ⟨?_, ?_, ?_, ?_, ?_, ?_, ?_, ?_, ?_⟩
    · intro he; rw [q1, p1, e1, n5 he]
    · intro hne; rw [q1, p1, e1, n6 hne]
    · intro he; rw [q2, p2, e5 he, n1]
    · intro hne; rw [q2, p2, e6 hne]
    · intro he; rw [q3, p5 he, e2, n2]
    · intro hne; rw [q3, p6 hne]
    · intro he; rw [q5 he, p3, e3, n3]
    · intro hne; exact (q6 hne).1
    · rw [q4, p4, e4, n4]
  · obtain ⟨s0, h0, h1, -⟩ := RestaurantService.UpdateRestaurant_ok_inv rdb rid rreq r' rdb' hr
    rw [hr0] at h0
    injection h0 with h0
    subst h0
    subst h1
    refine ⟨?_, ?_, ?_, ?_, ?_, ?_, ?_, ?_, ?_, ?_⟩
    · intro he; rw [applyRestaurantFields_name]; simp [he]
    · intro hne; rw [applyRestaurantFields_name]; simp [hne]
    · intro he; rw [applyRestaurantFields_description]; simp [he]
    · intro hne; rw [applyRestaurantFields_description]; simp [hne]
    · intro he; rw [applyRestaurantFields_address]; simp [he]
    · intro hne; rw [applyRestaurantFields_address]; simp [hne]
    · intro he; rw [applyRestaurantFields_phone]; simp [he]
    · intro hne; rw [applyRestaurantFields_phone]; simp [hne]
    · exact applyRestaurantFields_id rreq r0
    · exact applyRestaurantFields_userID rreq r0

theorem partial_update_empty_fields_preserved_witness :
    UserService.UpdateUser [⟨1, "N", "a@e.c", "pw", "user"⟩] 1 ⟨"N2", "", "", ""⟩ =
      .ok (⟨1, "N2", "a@e.c", "pw", "user"⟩, [⟨1, "N2", "a@e.c", "pw", "user"⟩]) ∧
    (⟨1, "N2", "a@e.c", "pw", "user"⟩ : User).email =
      (⟨1, "N", "a@e.c", "pw", "user"⟩ : User).email :=
  ⟨rfl,
    (partial_update_empty_fields_preserved
      [⟨1, "N", "a@e.c", "pw", "user"⟩] 1 ⟨"N2", "", "", ""⟩
      ⟨1, "N", "a@e.c", "pw", "user"⟩ ⟨1, "N2", "a@e.c", "pw", "user"⟩
      [⟨1, "N2", "a@e.c", "pw", "user"⟩] rfl rfl
      [⟨2, "R", "D", "A", "P", 1⟩] 2 ⟨"", "", "", ""⟩
      ⟨2, "R", "D", "A", "P", 1⟩ ⟨2, "R", "D", "A", "P", 1⟩
      [⟨2, "R", "D", "A", "P", 1⟩] rfl rfl).1.2.2.1 rfl⟩

/-- Claim C2 counterexample: with an empty user store, the non-admin principal with
id 1 deleting the non-existent user id 2 receives 403 Forbidden, not the 404
NotFound the claim requires for every principal. -/
theorem user_delete_nonexistent_forbidden_cex :
    userGetByID [] 2 = none ∧
    UserHandler.DeleteUser ⟨1, "a@e.c", "user", 0⟩ 2 [] = (403, []) ∧
    (403 : Nat) ≠ 404 := by
  refine ⟨rfl, ?_, by decide⟩
  decide

/-- Claim C2 amended: for restaurant update/delete, a missing target yields 404 for
every principal, the ownership check running after the lookup and before any
mutation; for user get/update/delete the ownership check against the requested
id runs before the lookup, so a missing target yields 404 exactly for the
principals that pass it (self or admin, and for update also the role
pre-check), while a non-admin principal targeting a different id gets 403. No
store is mutated in any of these cases. -/
theorem missing_target_notfound_or_forbidden
    (claims : JWTClaims) (id : Nat) (ureq : UpdateUserRequest)
    (udb : List User) (rreq : UpdateRestaurantRequest) (rdb : List Restaurant)
    (hrnone : restaurantGetByID rdb id = none)
    (hunone : userGetByID udb id = none) :
    RestaurantHandler.UpdateRestaurant claims id rreq rdb = (404, rdb) ∧
    RestaurantHandler.DeleteRestaurant claims id rdb = (404, rdb) ∧
    ((claims.userID = id ∨ claims.role = "admin") →
      UserHandler.GetUser claims id udb = 404 ∧
      UserHandler.DeleteUser claims id udb = (404, udb) ∧
      ((ureq.role = "" ∨ claims.role = "admin") →
        UserHandler.UpdateUser claims id ureq udb = (404, udb))) ∧
    (claims.userID ≠ id ∧ claims.role ≠ "admin" →
      UserHandler.GetUser claims id udb = 403 ∧
      UserHandler.DeleteUser claims id udb = (403, udb) ∧
      UserHandler.UpdateUser claims id ureq udb = (403, udb)) := by
  have hserviceGet : UserService.GetUserByID udb id = .error ErrUserNotFound := by
    unfold UserService.GetUserByID
    rw [hunone]
  have hserviceDel : UserService.DeleteUser udb id = .error ErrUserNotFound := by
    unfold UserService.DeleteUser
    rw [hunone]
  have hserviceUpd : UserService.UpdateUser udb id ureq = .error ErrUserNotFound := by
    unfold UserService.UpdateUser
    rw [hunone]
  have hwo : RestaurantService.GetRestaurantByIDWithoutUserCheck rdb id =
      .error ErrRestaurantNotFound := by
    unfold RestaurantService.GetRestaurantByIDWithoutUserCheck
    rw [hrnone]
  refine ⟨?_, ?_, ?_, ?_⟩
  · unfold RestaurantHandler.UpdateRestaurant
    rw [hwo]
    simp [ErrRestaurantNotFound]
  · unfold RestaurantHandler.DeleteRestaurant
    rw [hwo]
    simp [ErrRestaurantNotFound]
  · intro hperm
    have hnot : ¬ (claims.userID ≠ id ∧ claims.role ≠ "admin") := by
      rcases hperm with h | h
      · exact fun hc => hc.1 h
      · exact fun hc => hc.2 h
    refine ⟨?_, ?_, ?_⟩
    · unfold UserHandler.GetUser
      rw [hserviceGet]
      simp [hnot, ErrUserNotFound]
    · unfold UserHandler.DeleteUser
      rw [hserviceDel]
      simp [hnot, ErrUserNotFound]
    · intro hrole
      have hnotrole : ¬ (ureq.role ≠ "" ∧ claims.role ≠ "admin") := by
        rcases hrole with h | h
        · exact fun hc => hc.1 h
        · exact fun hc => hc.2 h
      unfold UserHandler.UpdateUser
      rw [hserviceUpd]
      simp [hnot, hnotrole, ErrUserNotFound]
  · intro ⟨hid, hadmin⟩
    refine ⟨?_, ?_, ?_⟩
    · unfold UserHandler.GetUser
      simp [hid, hadmin]
    · unfold UserHandler.DeleteUser
      simp [hid, hadmin]
    · unfold UserHandler.UpdateUser
      by_cases hrole : ureq.role = ""
      · simp [hid, hadmin, hrole]
      · simp [hid, hadmin, hrole]

theorem missing_target_notfound_or_forbidden_witness :
    RestaurantHandler.DeleteRestaurant ⟨1, "a@e.c", "admin", 0⟩ 2 [] = (404, []) ∧
    UserHandler.DeleteUser ⟨1, "a@e.c", "admin", 0⟩ 2 [] = (404, []) :=
  ⟨(missing_target_notfound_or_forbidden ⟨1, "a@e.c", "admin", 0⟩ 2 ⟨"", "", "", ""⟩ []
      ⟨"", "", "", ""⟩ [] rfl rfl).2.1,
    ((missing_target_notfound_or_forbidden ⟨1, "a@e.c", "admin", 0⟩ 2 ⟨"", "", "", ""⟩ []
      ⟨"", "", "", ""⟩ [] rfl rfl).2.2.1 (Or.inr rfl)).2.1⟩

/-- Claim C4 counterexample: the first registration of a@e.c succeeds with 201; the
second attempt with the same email fails but AuthHandler.Register surfaces it
as HTTP 500 (the internal error kind), there being no conflict branch. -/
theorem register_duplicate_internal_cex :
    AuthHandler.Register ⟨"Al", "a@e.c", "password1"⟩ [] 1 =
      (201, [⟨1, "Al", "a@e.c", hashPassword "password1", "user"⟩]) ∧
    AuthHandler.Register ⟨"Al", "a@e.c", "password1"⟩
        [⟨1, "Al", "a@e.c", hashPassword "password1", "user"⟩] 2 =
      (500, [⟨1, "Al", "a@e.c", hashPassword "password1", "user"⟩]) ∧
    (500 : Nat) ≠ 409 :=
  ⟨rfl, rfl, by decide⟩

/-- Claim C4 amended: registering an email that already has a user always fails with
the duplicate-email error "user with this email already exists", and the
handler reports it as HTTP 500 internal error, not as a conflict kind. -/
theorem register_duplicate_fails_internal (udb : List User) (nextId : Nat)
    (req : RegisterUserRequest) (u : User)
    (hdup : userGetByEmail udb req.email = some u) :
    AuthService.Register udb nextId req = .error "user with this email already exists" ∧
    AuthHandler.Register req udb nextId = (500, udb) := by
  have hreg : AuthService.Register udb nextId req =
      .error "user with this email already exists" := by
    unfold AuthService.Register
    rw [hdup]
  refine ⟨hreg, ?_⟩
  unfold AuthHandler.Register
  rw [hreg]

theorem register_duplicate_fails_internal_witness :
    AuthHandler.Register ⟨"Bo", "a@e.c", "password2"⟩
      [⟨1, "Al", "a@e.c", hashPassword "password1", "user"⟩] 2 =
      (500, [⟨1, "Al", "a@e.c", hashPassword "password1", "user"⟩]) :=
  (register_duplicate_fails_internal
    [⟨1, "Al", "a@e.c", hashPassword "password1", "user"⟩] 2
    ⟨"Bo", "a@e.c", "password2"⟩ ⟨1, "Al", "a@e.c", hashPassword "password1", "user"⟩
    rfl).2

end RestaurantApi
